import Mathlib

/-!
Shallow embedding of `crispy_forms/templatetags/crispy_forms_tags.py`
(django-crispy-forms): the `ForLoopSimulator` loop cursor, the
`BasicNode.get_render` / `BasicNode.get_response_dict` context builder and
layout dispatch, and the template selection in `CrispyFormNode.render`.
Python unbounded integers are modelled by `Int`; Python dicts by
association lists with first-occurrence lookup; raised exceptions by
`Except`.
-/

namespace Crispy

/-- Values stored in the rendering dictionaries: Python strings, booleans,
`None`, string-valued sub-dicts (such as the helper's `attrs`) and lists
(such as `inputs`). -/
inductive Value where
  | str : String → Value
  | bool : Bool → Value
  | null : Value
  | strDict : List (String × String) → Value
  | strList : List String → Value
  | formRef : Nat → Value
deriving DecidableEq, Repr

/-- Association-list lookup, first occurrence wins (a Python dict has
unique keys, so first occurrence is the key's single binding). -/
def dget (d : List (String × Value)) (k : String) : Option Value :=
  (d.find? (fun p => p.1 = k)).map Prod.snd

/-- Lookup with a default, modelling Python `d.get(k, dflt)`. -/
def dgetD (d : List (String × Value)) (k : String) (dflt : Value) : Value :=
  (dget d k).getD dflt

/-- Lookup with a default on a string-valued dict, modelling
`d.get(k, dflt)` on the helper's `attrs` sub-dict. -/
def sgetD (d : List (String × String)) (k : String) (dflt : String) : String :=
  ((d.find? (fun p => p.1 = k)).map Prod.snd).getD dflt

/-- Membership test, modelling Python `k in d`. -/
def containsKey (d : List (String × Value)) (k : String) : Bool :=
  (d.find? (fun p => p.1 = k)).isSome

/-- Dict assignment `d[k] = v`: replaces the binding if the key exists,
appends it otherwise. -/
def dset (d : List (String × Value)) (k : String) (v : Value) :
    List (String × Value) :=
  if containsKey d k then d.map (fun p => if p.1 = k then (k, v) else p)
  else d ++ [(k, v)]

/-- The state of a `ForLoopSimulator`: `len_values` is fixed at
construction, the six counters/flags evolve with `iterate`.  Python ints
are unbounded, hence `Int`. -/
structure ForLoopSimulator where
  len_values : Int
  counter : Int
  counter0 : Int
  revcounter : Int
  revcounter0 : Int
  first : Bool
  last : Bool
deriving DecidableEq, Repr

/-- `ForLoopSimulator.__init__`: takes `len(formset.forms)` and sets
`counter=1, counter0=0, revcounter=len, revcounter0=len-1, first=True,
last=(0 == len-1)`. -/
def ForLoopSimulator.init (len_forms : Nat) : ForLoopSimulator :=
  { len_values := (len_forms : Int)
    counter := 1
    counter0 := 0
    revcounter := (len_forms : Int)
    revcounter0 := (len_forms : Int) - 1
    first := true
    last := decide ((0 : Int) = (len_forms : Int) - 1) }

/-- `ForLoopSimulator.iterate`: increments the forward counters,
decrements the reverse counters, clears `first`, and recomputes
`last = (revcounter0 == len_values - 1)` on the already-decremented
`revcounter0`. -/
def ForLoopSimulator.iterate (s : ForLoopSimulator) : ForLoopSimulator :=
  { len_values := s.len_values
    counter := s.counter + 1
    counter0 := s.counter0 + 1
    revcounter := s.revcounter - 1
    revcounter0 := s.revcounter0 - 1
    first := false
    last := decide (s.revcounter0 - 1 = s.len_values - 1) }

/-- Modelled from the spec: `crispy_forms.helper.FormHelper` is not under
src/; per the spec a Helper "holds a mapping of named rendering options
(string keys to values of mixed scalar/boolean/mapping type), an optional
`attrs` sub-mapping (HTML attributes such as `action`, `class`, `id`),
an optional declarative `layout` (opaque, polymorphic renderable)".  The
layout is kept opaque as a reference name; its render contract is passed
separately where needed. -/
structure FormHelper where
  options : List (String × Value) := []
  attrs : List (String × String) := []
  layout : Option String := Option.none
deriving DecidableEq, Repr

/-- Modelled from the spec: `FormHelper.get_attributes` is not under src/;
it returns the helper's named-option mapping together with the `attrs`
sub-mapping under the key `attrs` (the code at line 139 indexes
`attrs['attrs']` unconditionally, so that key is always present). -/
def FormHelper.get_attributes (h : FormHelper) : List (String × Value) :=
  ("attrs", Value.strDict h.attrs) :: h.options

/-- The helper object reaching `get_response_dict`: either a real
`FormHelper` or an arbitrary non-`FormHelper` object (which fails the
`isinstance` check at line 129). -/
inductive HelperArg where
  | valid : FormHelper → HelperArg
  | invalid : String → HelperArg
deriving DecidableEq, Repr

/-- A form object: an identity, the transient renderer-written
`form_html` slot, and the optional attached `helper` attribute
(`hasattr(actual_form, 'helper')` is `helper ≠ none`). -/
structure Form where
  id : Nat
  form_html : Option String := Option.none
  helper : Option HelperArg := Option.none
deriving DecidableEq, Repr

/-- The resolved render target: a single form or a formset (an ordered
list of forms, insertion order = render order). -/
inductive FormLike where
  | single : Form → FormLike
  | formset : List Form → FormLike
deriving DecidableEq, Repr

/-- A rendering context mapping (e.g. the ambient template context). -/
abbrev ContextMap := List (String × Value)

/-- Helper resolution in `BasicNode.get_render` (lines 90–95): an
explicitly passed helper is used as is; otherwise the form's attached
`helper` attribute when it has one, else a fresh empty `FormHelper()`. -/
def resolve_helper (node_helper : Option HelperArg) (actual_form : Form) :
    HelperArg :=
  match node_helper with
  | some h => h
  | Option.none =>
      match actual_form.helper with
      | Option.none => HelperArg.valid {}
      | some h => h

/-- The error message raised at line 130 when the helper fails the
`isinstance(helper, FormHelper)` check. -/
def invalid_helper_message : String :=
  "helper object provided to the crispy tag must be a crispy.helper.FormHelper object."

/-- The fixed response dictionary literal of `get_response_dict`
(lines 138–154): form/formset-prefixed keys from the helper's attributes
with their documented defaults, plus the shared keys. -/
def response_dict_base (h : FormHelper) (is_formset : Bool) :
    List (String × Value) :=
  let attrs := h.get_attributes
  let form_type := if is_formset then "formset" else "form"
  [ (form_type ++ "_action", Value.str (sgetD h.attrs "action" "")),
    (form_type ++ "_method", dgetD attrs "form_method" (Value.str "post")),
    (form_type ++ "_tag", dgetD attrs "form_tag" (Value.bool true)),
    (form_type ++ "_class", Value.str (sgetD h.attrs "class" "")),
    (form_type ++ "_id", Value.str (sgetD h.attrs "id" "")),
    (form_type ++ "_style", dgetD attrs "form_style" Value.null),
    ("form_error_title", dgetD attrs "form_error_title" Value.null),
    ("formset_error_title", dgetD attrs "formset_error_title" Value.null),
    ("form_show_errors", dgetD attrs "form_show_errors" (Value.bool true)),
    ("help_text_inline", dgetD attrs "help_text_inline" (Value.bool false)),
    ("html5_required", dgetD attrs "html5_required" (Value.bool false)),
    ("inputs", dgetD attrs "inputs" (Value.strList [])),
    ("is_formset", Value.bool is_formset),
    (form_type ++ "_attrs", dgetD attrs "attrs" (Value.str "")),
    ("flat_attrs", dgetD attrs "flat_attrs" (Value.str "")) ]

/-- The custom-attribute pass-through loop (lines 157–159): every
`(attribute_name, value)` of the helper's attributes is copied into the
response dict unless the key is already present. -/
def pass_through (rd : List (String × Value)) (attrs : List (String × Value)) :
    List (String × Value) :=
  attrs.foldl (fun acc p => if containsKey acc p.1 then acc else acc ++ [p]) rd

/-- The body of `get_response_dict` after the `isinstance` check
(lines 132–164): base dict, pass-through of custom helper attributes,
then the ambient `csrf_token` copied in last when the context has it. -/
def response_dict_core (h : FormHelper) (context : ContextMap)
    (is_formset : Bool) : List (String × Value) :=
  let rd := pass_through (response_dict_base h is_formset) h.get_attributes
  match dget context "csrf_token" with
  | some v => dset rd "csrf_token" v
  | Option.none => rd

/-- `BasicNode.get_response_dict` (lines 121–164): raises `TypeError`
when the helper is not a `FormHelper`, otherwise builds the response
dictionary. -/
def get_response_dict (helper : HelperArg) (context : ContextMap)
    (is_formset : Bool) : Except String (List (String × Value)) :=
  match helper with
  | HelperArg.invalid _ => Except.error invalid_helper_message
  | HelperArg.valid h =>
      Except.ok (response_dict_core h context is_formset)

/-- The caller's step `node_context.update(response_dict)` at line 101,
made state-passing so that the raise at line 130 visibly leaves the
context untouched: on error the context comes back unchanged. -/
def get_render_context_update (helper : HelperArg) (node_context : ContextMap)
    (is_formset : Bool) : Except String Unit × ContextMap :=
  match get_response_dict helper node_context is_formset with
  | Except.error e => (Except.error e, node_context)
  | Except.ok rd => (Except.ok (), rd.foldl (fun c p => dset c p.1 p.2) node_context)

/-- The single-form response context returned by `get_render` (lines
99, 117, 119): the response dictionary with `is_formset = False`,
updated with the form itself under the key `form` (the form is
represented by its identity). -/
def get_render_response_single (helper : FormHelper) (context : ContextMap)
    (f : Form) : List (String × Value) :=
  dset (response_dict_core helper context false) "form" (Value.formRef f.id)

/-- A record of one `form.form_html = helper.render_layout(form, node_context)`
write at line 111: which form was written and the `forloop` cursor state
visible in the context at that moment (set by the preceding
`node_context.update` at line 110, before `forloop.iterate()`). -/
structure FormsetWrite where
  formId : Nat
  loopInfo : ForLoopSimulator
deriving DecidableEq, Repr

/-- The formset branch of the layout dispatch (lines 108–112): for each
form in insertion order, put the current cursor in context, render the
layout onto the form's `form_html`, then advance the shared cursor.
`render_layout` abstracts the external layout render contract; it sees
the form and the cursor snapshot current at the write. -/
def formset_layout_loop (render_layout : Form → ForLoopSimulator → String) :
    List Form → ForLoopSimulator → List Form × List FormsetWrite
  | [], _ => ([], [])
  | f :: fs, s =>
      let html := render_layout f s
      let rest := formset_layout_loop render_layout fs s.iterate
      ({ f with form_html := some html } :: rest.1,
       { formId := f.id, loopInfo := s } :: rest.2)

/-- The layout dispatch of `get_render` (lines 104–112): a no-op when the
helper has no layout; otherwise render the layout once for a single form,
or once per formset form with a fresh `ForLoopSimulator` sized to the
formset.  Returns the updated form(s) and the trace of formset
`form_html` writes with their visible cursor snapshots. -/
def apply_layout (helper : FormHelper)
    (render_layout_single : Form → String)
    (render_layout : Form → ForLoopSimulator → String)
    (actual_form : FormLike) : FormLike × List FormsetWrite :=
  match helper.layout with
  | Option.none => (actual_form, [])
  | some _ =>
      match actual_form with
      | FormLike.single f =>
          (FormLike.single { f with form_html := some (render_layout_single f) }, [])
      | FormLike.formset fs =>
          let out := formset_layout_loop render_layout fs
            (ForLoopSimulator.init fs.length)
          (FormLike.formset out.1, out.2)

/-- The template pack, `getattr(settings, 'CRISPY_TEMPLATE_PACK', 'bootstrap')`
at its default. -/
def TEMPLATE_PACK : String := "bootstrap"

/-- A loaded template artifact: the name it was looked up by and a serial
number identifying which `get_template` call produced it, so distinct
lookups yield distinct handles. -/
structure TemplateHandle where
  name : String
  lookupId : Nat
deriving DecidableEq, Repr

/-- The template loader's state: the serial number of the next lookup. -/
structure LoaderState where
  nextId : Nat
deriving DecidableEq, Repr

/-- The external `get_template(name)` lookup contract: every call is an
independent lookup producing a fresh handle. -/
def get_template (name : String) (st : LoaderState) :
    TemplateHandle × LoaderState :=
  ({ name := name, lookupId := st.nextId }, { nextId := st.nextId + 1 })

/-- The module-level state after import (lines 167–168): the two
process-wide template handles loaded once at process start. -/
structure ModuleState where
  loader : LoaderState
  whole_uni_formset_template : TemplateHandle
  whole_uni_form_template : TemplateHandle
deriving DecidableEq, Repr

/-- Module import (lines 167–168): `whole_uni_formset_template` and
`whole_uni_form_template` are looked up once, at process start. -/
def module_init (st0 : LoaderState) : ModuleState :=
  let fsT := get_template (TEMPLATE_PACK ++ "/whole_uni_formset.html") st0
  let fT := get_template (TEMPLATE_PACK ++ "/whole_uni_form.html") fsT.2
  { loader := fT.2
    whole_uni_formset_template := fsT.1
    whole_uni_form_template := fT.1 }

/-- Template selection in `CrispyFormNode.render` (lines 174–183): in
debug mode a fresh `get_template` lookup on every call; otherwise the
module-level cached handle, with no lookup performed. -/
def select_template (m : ModuleState) (is_formset debug : Bool)
    (st : LoaderState) : TemplateHandle × LoaderState :=
  if is_formset then
    if debug then get_template (TEMPLATE_PACK ++ "/whole_uni_formset.html") st
    else (m.whole_uni_formset_template, st)
  else
    if debug then get_template (TEMPLATE_PACK ++ "/whole_uni_form.html") st
    else (m.whole_uni_form_template, st)

/-! Association-list lemmas shared by the theorems below. -/

theorem dget_append (d d' : List (String × Value)) (k : String) :
    dget (d ++ d') k = (dget d k).or (dget d' k) := by
  unfold dget
  rw [List.find?_append]
  cases d.find? (fun p => p.1 = k) <;> simp

theorem containsKey_eq_isSome_dget (d : List (String × Value)) (k : String) :
    containsKey d k = (dget d k).isSome := by
  unfold containsKey dget
  cases d.find? (fun p => p.1 = k) <;> simp

theorem dget_cons_eq (p : String × Value) (d : List (String × Value))
    (k : String) (h : p.1 = k) : dget (p :: d) k = some p.2 := by
  unfold dget
  rw [List.find?_cons_of_pos]
  · rfl
  · simp [h]

theorem dget_cons_ne (p : String × Value) (d : List (String × Value))
    (k : String) (h : ¬p.1 = k) : dget (p :: d) k = dget d k := by
  unfold dget
  rw [List.find?_cons_of_neg]
  simp [h]

theorem dget_singleton_ne (p : String × Value) (k : String) (h : ¬p.1 = k) :
    dget [p] k = Option.none := by
  rw [dget_cons_ne p [] k h]
  rfl

theorem dget_map_replace (d : List (String × Value)) (k k' : String)
    (v : Value) (h : ¬k = k') :
    dget (List.map (fun p => if p.1 = k' then (k', v) else p) d) k = dget d k := by
  induction d with
  | nil => rfl
  | cons p rest ih =>
      simp only [List.map_cons]
      by_cases hp : p.1 = k'
      · rw [if_pos hp]
        rw [dget_cons_ne (k', v) _ k (fun hk => h hk.symm),
          dget_cons_ne p rest k (by rw [hp]; exact fun hk => h hk.symm)]
        exact ih
      · rw [if_neg hp]
        by_cases hpk : p.1 = k
        · rw [dget_cons_eq p _ k hpk, dget_cons_eq p rest k hpk]
        · rw [dget_cons_ne p _ k hpk, dget_cons_ne p rest k hpk]
          exact ih

theorem dget_dset_ne (d : List (String × Value)) (k k' : String) (v : Value)
    (h : ¬k = k') : dget (dset d k' v) k = dget d k := by
  unfold dset
  by_cases hc : containsKey d k' = true
  · rw [if_pos hc]
    exact dget_map_replace d k k' v h
  · rw [if_neg hc]
    rw [dget_append]
    rw [dget_singleton_ne (k', v) k (fun hk => h hk.symm)]
    cases dget d k <;> rfl

theorem pass_through_preserves (attrs : List (String × Value))
    (rd : List (String × Value)) (k : String) (h : containsKey rd k = true) :
    dget (pass_through rd attrs) k = dget rd k := by
  induction attrs generalizing rd with
  | nil => rfl
  | cons p rest ih =>
      show dget (pass_through (if containsKey rd p.1 then rd else rd ++ [p]) rest) k
        = dget rd k
      by_cases hc : containsKey rd p.1 = true
      · rw [if_pos hc]
        exact ih rd h
      · rw [if_neg hc]
        have hkeep : dget (rd ++ [p]) k = dget rd k := by
          rw [dget_append]
          rw [containsKey_eq_isSome_dget] at h
          cases hd : dget rd k with
          | some v => rfl
          | none => rw [hd] at h; simp at h
        have hck : containsKey (rd ++ [p]) k = true := by
          rw [containsKey_eq_isSome_dget, hkeep, ← containsKey_eq_isSome_dget]
          exact h
        rw [ih (rd ++ [p]) hck, hkeep]

theorem pass_through_adds (attrs : List (String × Value))
    (rd : List (String × Value)) (k : String) (v : Value)
    (h1 : containsKey rd k = false) (h2 : dget attrs k = some v) :
    dget (pass_through rd attrs) k = some v := by
  induction attrs generalizing rd with
  | nil => simp [dget] at h2
  | cons p rest ih =>
      show dget (pass_through (if containsKey rd p.1 then rd else rd ++ [p]) rest) k
        = some v
      by_cases hp : p.1 = k
      · have hcrd : ¬containsKey rd p.1 = true := by
          rw [hp, h1]; exact Bool.false_ne_true
        rw [if_neg hcrd]
        have hv : v = p.2 := by
          rw [dget_cons_eq p rest k hp] at h2
          exact (Option.some_inj.mp h2).symm
        have hget : dget (rd ++ [p]) k = some p.2 := by
          rw [dget_append, dget_cons_eq p [] k hp]
          rw [containsKey_eq_isSome_dget] at h1
          cases hd : dget rd k with
          | some w => rw [hd] at h1; simp at h1
          | none => rfl
        have hck : containsKey (rd ++ [p]) k = true := by
          rw [containsKey_eq_isSome_dget, hget]; rfl
        rw [pass_through_preserves rest (rd ++ [p]) k hck, hget, hv]
      · rw [dget_cons_ne p rest k hp] at h2
        by_cases hc : containsKey rd p.1 = true
        · rw [if_pos hc]
          exact ih rd h1 h2
        · rw [if_neg hc]
          have hck : containsKey (rd ++ [p]) k = false := by
            rw [containsKey_eq_isSome_dget, dget_append,
              dget_singleton_ne p k hp]
            rw [containsKey_eq_isSome_dget] at h1
            cases hd : dget rd k with
            | some w => rw [hd] at h1; simp at h1
            | none => rfl
          exact ih (rd ++ [p]) hck h2

/-! Loop-cursor lemmas for the iterated `ForLoopSimulator`. -/

theorem iterate_len_values (s : ForLoopSimulator) (k : Nat) :
    (ForLoopSimulator.iterate^[k] s).len_values = s.len_values := by
  induction k with
  | zero => rfl
  | succ j ih =>
      rw [Function.iterate_succ_apply']
      exact ih

theorem iterate_counter0 (s : ForLoopSimulator) (k : Nat) :
    (ForLoopSimulator.iterate^[k] s).counter0 = s.counter0 + k := by
  induction k with
  | zero => simp
  | succ j ih =>
      rw [Function.iterate_succ_apply']
      show (ForLoopSimulator.iterate^[j] s).counter0 + 1 = s.counter0 + (j + 1 : Nat)
      rw [ih]
      push_cast
      ring

theorem iterate_revcounter0 (s : ForLoopSimulator) (k : Nat) :
    (ForLoopSimulator.iterate^[k] s).revcounter0 = s.revcounter0 - k := by
  induction k with
  | zero => simp
  | succ j ih =>
      rw [Function.iterate_succ_apply']
      show (ForLoopSimulator.iterate^[j] s).revcounter0 - 1 = s.revcounter0 - (j + 1 : Nat)
      rw [ih]
      push_cast
      ring

/-- C2: `iterate` increments `counter` and `counter0`, decrements
`revcounter` and `revcounter0`, clears `first`, and sets `last` to the
predicate `revcounter0 == len_values - 1` evaluated on the
post-decrement `revcounter0` — and this recurrence is not
`revcounter0 == 0`: after two iterations from a 3-element cursor the
post-decrement `revcounter0` is 0 yet `last` is false. -/
theorem iterate_recurrence_exact :
    (∀ s : ForLoopSimulator,
      s.iterate.counter = s.counter + 1 ∧
      s.iterate.counter0 = s.counter0 + 1 ∧
      s.iterate.revcounter = s.revcounter - 1 ∧
      s.iterate.revcounter0 = s.revcounter0 - 1 ∧
      s.iterate.first = false ∧
      s.iterate.last = decide (s.revcounter0 - 1 = s.len_values - 1)) ∧
    ((ForLoopSimulator.init 3).iterate.iterate.revcounter0 = 0 ∧
     (ForLoopSimulator.init 3).iterate.iterate.last = false) := by
  constructor
  · intro s
    exact ⟨rfl, rfl, rfl, rfl, rfl, rfl⟩
  · exact ⟨by decide, by decide⟩

/-- C3: for every cursor built with `total ≥ 1` and every `k ≥ 1`, after
the `k`-th `iterate` call the invariant `counter0 + revcounter0 = total - 1`
holds (the forward 0-based index plus the reverse 0-based index is the
length minus one). -/
theorem counter0_revcounter0_invariant (n k : Nat) (hn : 1 ≤ n) (hk : 1 ≤ k) :
    (ForLoopSimulator.iterate^[k] (ForLoopSimulator.init n)).counter0 +
      (ForLoopSimulator.iterate^[k] (ForLoopSimulator.init n)).revcounter0 =
      (n : Int) - 1 := by
  rw [iterate_counter0, iterate_revcounter0]
  show (0 : Int) + k + ((n : Int) - 1 - k) = (n : Int) - 1
  ring

/-- Witness for C3 at `total = 3`, `k = 2`. -/
theorem counter0_revcounter0_invariant_witness :
    (ForLoopSimulator.iterate^[2] (ForLoopSimulator.init 3)).counter0 +
      (ForLoopSimulator.iterate^[2] (ForLoopSimulator.init 3)).revcounter0 =
      ((3 : Nat) : Int) - 1 :=
  counter0_revcounter0_invariant 3 2 (by decide) (by decide)

/-- C10: for every cursor built with `total ≥ 2`, `last` is false
initially and stays false after every finite number of `iterate` calls:
the recomputed predicate compares the strictly decreasing `revcounter0`
against its initial value `total - 1`, which it never reattains. -/
theorem last_never_true (n : Nat) (hn : 2 ≤ n) :
    (ForLoopSimulator.init n).last = false ∧
    ∀ k : Nat, (ForLoopSimulator.iterate^[k] (ForLoopSimulator.init n)).last = false := by
  constructor
  · show decide ((0 : Int) = (n : Int) - 1) = false
    rw [decide_eq_false_iff_not]
    intro h
    omega
  · intro k
    cases k with
    | zero =>
        show decide ((0 : Int) = (n : Int) - 1) = false
        rw [decide_eq_false_iff_not]
        intro h
        omega
    | succ j =>
        rw [Function.iterate_succ_apply']
        show decide ((ForLoopSimulator.iterate^[j] (ForLoopSimulator.init n)).revcounter0 - 1 =
          (ForLoopSimulator.iterate^[j] (ForLoopSimulator.init n)).len_values - 1) = false
        rw [iterate_revcounter0, iterate_len_values]
        rw [decide_eq_false_iff_not]
        show ¬((n : Int) - 1 - j - 1 = (n : Int) - 1)
        intro h
        omega

/-- Witness for C10 at `total = 3` (first conjunct checked at `k = 2` via
the universally quantified second conjunct). -/
theorem last_never_true_witness :
    (ForLoopSimulator.init 3).last = false ∧
    (ForLoopSimulator.iterate^[2] (ForLoopSimulator.init 3)).last = false := by
  have h := last_never_true 3 (by decide)
  exact ⟨h.1, h.2 2⟩

/-- C1 counterexample: the claim as stated is false on the code — for a
3-form formset with a layout, the `loopInfo` snapshot at the third
`form_html` write has `isLast = false`, not `true`, because the
recomputed `last` predicate never fires again after construction. -/
theorem formset_three_writes_counterexample :
    ¬((apply_layout (FormHelper.mk [] [] (some "layout")) (fun _ => "html")
        (fun _ _ => "html")
        (FormLike.formset [Form.mk 1 Option.none Option.none,
          Form.mk 2 Option.none Option.none,
          Form.mk 3 Option.none Option.none])).2.map
        (fun w => (w.loopInfo.first, w.loopInfo.last))
      = [(true, false), (false, false), (false, true)]) := by
  decide

/-- C1 (amended): for a formset of exactly 3 forms rendered with a helper
whose layout is present, `apply_layout` performs exactly 3 `form_html`
writes, one per form in insertion order, and the `loopInfo`
`(isFirst, isLast)` snapshots visible at the writes are `(true, false)`
for form 1, `(false, false)` for form 2 and `(false, false)` — not
`(false, true)` — for form 3. -/
theorem formset_three_writes (hlp : FormHelper) (lay : String)
    (rls : Form → String) (rl : Form → ForLoopSimulator → String)
    (f1 f2 f3 : Form) (hL : hlp.layout = some lay) :
    (apply_layout hlp rls rl (FormLike.formset [f1, f2, f3])).2.length = 3 ∧
    (apply_layout hlp rls rl (FormLike.formset [f1, f2, f3])).2.map
        FormsetWrite.formId = [f1.id, f2.id, f3.id] ∧
    (apply_layout hlp rls rl (FormLike.formset [f1, f2, f3])).2.map
        (fun w => (w.loopInfo.first, w.loopInfo.last))
      = [(true, false), (false, false), (false, false)] ∧
    (apply_layout hlp rls rl (FormLike.formset [f1, f2, f3])).1
      = FormLike.formset
          [Form.mk f1.id (some (rl f1 (ForLoopSimulator.init 3))) f1.helper,
           Form.mk f2.id (some (rl f2 (ForLoopSimulator.init 3).iterate)) f2.helper,
           Form.mk f3.id (some (rl f3 (ForLoopSimulator.init 3).iterate.iterate)) f3.helper] := by
  simp only [apply_layout, hL]
  exact ⟨rfl, rfl, rfl, rfl⟩

/-- Witness for C1 (amended) at a concrete helper, layout renderer and
three concrete forms. -/
theorem formset_three_writes_witness :
    (apply_layout (FormHelper.mk [] [] (some "layout")) (fun _ => "html")
        (fun _ _ => "html")
        (FormLike.formset [Form.mk 1 Option.none Option.none,
          Form.mk 2 Option.none Option.none,
          Form.mk 3 Option.none Option.none])).2.map
        (fun w => (w.loopInfo.first, w.loopInfo.last))
      = [(true, false), (false, false), (false, false)] :=
  (formset_three_writes (FormHelper.mk [] [] (some "layout")) "layout"
    (fun _ => "html") (fun _ _ => "html")
    (Form.mk 1 Option.none Option.none) (Form.mk 2 Option.none Option.none)
    (Form.mk 3 Option.none Option.none) rfl).2.2.1

/-- C4: a non-`FormHelper` helper makes `get_response_dict` raise the
`TypeError` of line 130, and the caller's context-update step then leaves
the rendering context exactly as it was — no key is written. -/
theorem invalid_helper_raises_unchanged :
    ∀ (desc : String) (ctx : ContextMap) (b : Bool),
      get_response_dict (HelperArg.invalid desc) ctx b
        = Except.error invalid_helper_message ∧
      get_render_context_update (HelperArg.invalid desc) ctx b
        = (Except.error invalid_helper_message, ctx) := by
  intro desc ctx b
  exact ⟨rfl, rfl⟩

/-- C5 counterexample: the claim as stated is false on the code — the
dev-mode lookup name for a single form is `bootstrap/whole_uni_form.html`,
not `bootstrap/whole_form.html` (and similarly `whole_uni_formset.html`
for formsets). -/
theorem select_template_name_counterexample :
    (select_template (module_init (LoaderState.mk 0)) false true
        (LoaderState.mk 2)).1.name ≠ TEMPLATE_PACK ++ "/whole_form.html" ∧
    (select_template (module_init (LoaderState.mk 0)) false true
        (LoaderState.mk 2)).1.name = "bootstrap/whole_uni_form.html" := by
  constructor
  · decide
  · rfl

/-- C5 (amended): with the template names corrected to
`whole_uni_form.html` / `whole_uni_formset.html`: in dev mode every
selection performs a fresh lookup by that name, so two selections perform
two independent lookups yielding distinct handles; in non-dev mode both
selections return the same cached handle with no lookup performed, the
handle having been loaded once at process start under the same name. -/
theorem select_template_caching (st0 st : LoaderState) (b : Bool) :
    (select_template (module_init st0) b true st).1.lookupId ≠
      (select_template (module_init st0) b true
        (select_template (module_init st0) b true st).2).1.lookupId ∧
    ((select_template (module_init st0) b true
        (select_template (module_init st0) b true st).2).2).nextId
      = st.nextId + 2 ∧
    (select_template (module_init st0) b true st).1.name
      = (if b then TEMPLATE_PACK ++ "/whole_uni_formset.html"
         else TEMPLATE_PACK ++ "/whole_uni_form.html") ∧
    (select_template (module_init st0) b true
        (select_template (module_init st0) b true st).2).1.name
      = (select_template (module_init st0) b true st).1.name ∧
    (select_template (module_init st0) b false st).1
      = (select_template (module_init st0) b false
          (select_template (module_init st0) b false st).2).1 ∧
    (select_template (module_init st0) b false st).2 = st ∧
    (select_template (module_init st0) b false st).1
      = (if b then (module_init st0).whole_uni_formset_template
         else (module_init st0).whole_uni_form_template) ∧
    (module_init st0).whole_uni_formset_template.name
      = TEMPLATE_PACK ++ "/whole_uni_formset.html" ∧
    (module_init st0).whole_uni_form_template.name
      = TEMPLATE_PACK ++ "/whole_uni_form.html" := by
  cases b <;>
    refine ⟨?_, rfl, rfl, rfl, rfl, rfl, rfl, rfl, rfl⟩ <;>
    · show st.nextId ≠ st.nextId + 1
      omega

/-- C6: `get_response_dict` is deterministic — two invocations on the
same `(helper, ambientContext, is_formset)` triple return the same
result, and in particular any two returned dictionaries agree
key-for-key. -/
theorem get_response_dict_deterministic
    (helper : HelperArg) (ctx : ContextMap) (b : Bool)
    (r1 r2 : Except String (List (String × Value)))
    (h1 : get_response_dict helper ctx b = r1)
    (h2 : get_response_dict helper ctx b = r2) :
    r1 = r2 ∧
    ∀ rd1 rd2, r1 = Except.ok rd1 → r2 = Except.ok rd2 →
      ∀ k, dget rd1 k = dget rd2 k := by
  subst h1
  subst h2
  refine ⟨rfl, ?_⟩
  intro rd1 rd2 e1 e2 k
  rw [e1] at e2
  rw [Except.ok.injEq] at e2
  rw [e2]

/-- Witness for C6 at a concrete helper, context and form kind. -/
theorem get_response_dict_deterministic_witness :
    get_response_dict (HelperArg.valid (FormHelper.mk [] [] Option.none)) [] false
      = get_response_dict (HelperArg.valid (FormHelper.mk [] [] Option.none)) [] false :=
  (get_response_dict_deterministic
    (HelperArg.valid (FormHelper.mk [] [] Option.none)) [] false
    (get_response_dict (HelperArg.valid (FormHelper.mk [] [] Option.none)) [] false)
    (get_response_dict (HelperArg.valid (FormHelper.mk [] [] Option.none)) [] false)
    rfl rfl).1

/-- C7: when the caller omits the helper argument, the resolved helper is
the form's own attached `helper` attribute when the form has one, and a
fresh default empty `FormHelper()` when it does not (lines 93–95). -/
theorem resolve_helper_omitted (f : Form) :
    (∀ h : HelperArg, f.helper = some h → resolve_helper Option.none f = h) ∧
    (f.helper = Option.none →
      resolve_helper Option.none f = HelperArg.valid (FormHelper.mk [] [] Option.none)) := by
  constructor
  · intro h hh
    simp [resolve_helper, hh]
  · intro hh
    simp [resolve_helper, hh]

/-- Witness for C7: a form with an attached helper resolves to that
helper; a bare form resolves to the default empty helper. -/
theorem resolve_helper_omitted_witness :
    resolve_helper Option.none
        (Form.mk 1 Option.none
          (some (HelperArg.valid (FormHelper.mk [("k", Value.str "v")] [] Option.none))))
      = HelperArg.valid (FormHelper.mk [("k", Value.str "v")] [] Option.none) ∧
    resolve_helper Option.none (Form.mk 2 Option.none Option.none)
      = HelperArg.valid (FormHelper.mk [] [] Option.none) :=
  ⟨(resolve_helper_omitted
      (Form.mk 1 Option.none
        (some (HelperArg.valid (FormHelper.mk [("k", Value.str "v")] [] Option.none))))).1
      (HelperArg.valid (FormHelper.mk [("k", Value.str "v")] [] Option.none)) rfl,
   (resolve_helper_omitted (Form.mk 2 Option.none Option.none)).2 rfl⟩

/-- C8: for a single (non-formset) form rendered with a valid helper that
sets no options, the built context has `is_formset = false`, the key
`form_action` present, `form_method` defaulted to `"post"` and
`form_tag` defaulted to `true`. -/
theorem single_form_context_defaults (h : FormHelper) (ctx : ContextMap)
    (f : Form) (hopt : h.options = []) :
    dget (get_render_response_single h ctx f) "is_formset"
      = some (Value.bool false) ∧
    (dget (get_render_response_single h ctx f) "form_action").isSome = true ∧
    dget (get_render_response_single h ctx f) "form_method"
      = some (Value.str "post") ∧
    dget (get_render_response_single h ctx f) "form_tag"
      = some (Value.bool true) := by
  obtain ⟨opts, hattrs, lay⟩ := h
  have hopt2 : opts = [] := hopt
  subst hopt2
  cases hcs : dget ctx "csrf_token" with
  | none =>
      simp only [get_render_response_single, response_dict_core, hcs]
      exact ⟨rfl, rfl, rfl, rfl⟩
  | some v =>
      simp only [get_render_response_single, response_dict_core, hcs]
      exact ⟨rfl, rfl, rfl, rfl⟩

/-- Witness for C8 at the empty helper, empty ambient context and a
concrete form. -/
theorem single_form_context_defaults_witness :
    dget (get_render_response_single (FormHelper.mk [] [] Option.none) []
        (Form.mk 7 Option.none Option.none)) "is_formset"
      = some (Value.bool false) ∧
    dget (get_render_response_single (FormHelper.mk [] [] Option.none) []
        (Form.mk 7 Option.none Option.none)) "form_method"
      = some (Value.str "post") :=
  ⟨(single_form_context_defaults (FormHelper.mk [] [] Option.none) []
      (Form.mk 7 Option.none Option.none) rfl).1,
   (single_form_context_defaults (FormHelper.mk [] [] Option.none) []
      (Form.mk 7 Option.none Option.none) rfl).2.2.1⟩

/-- C9 counterexample: the claim as stated is false on the code — a
helper-declared custom key named `csrf_token` is not among the computed
response keys, yet its value is not copied through unchanged: the
ambient context's security token, written last, overwrites it. -/
theorem custom_key_pass_through_counterexample :
    containsKey
        (response_dict_base
          (FormHelper.mk [("csrf_token", Value.str "HELPER")] [] Option.none)
          false) "csrf_token" = false ∧
    dget (FormHelper.get_attributes
        (FormHelper.mk [("csrf_token", Value.str "HELPER")] [] Option.none))
        "csrf_token" = some (Value.str "HELPER") ∧
    dget (response_dict_core
        (FormHelper.mk [("csrf_token", Value.str "HELPER")] [] Option.none)
        [("csrf_token", Value.str "TOKEN")] false) "csrf_token"
      = some (Value.str "TOKEN") ∧
    Value.str "TOKEN" ≠ Value.str "HELPER" := by
  refine ⟨rfl, rfl, rfl, ?_⟩
  decide

/-- C9 (amended): every helper attribute whose name is not among the
computed response keys is copied into the result unchanged, except that
the security-token key is overwritten afterwards when the ambient
context carries a token; and a helper attribute whose name collides with
a computed response key never overwrites the computed value. -/
theorem custom_key_pass_through (h : FormHelper) (ctx : ContextMap)
    (b : Bool) (k : String) :
    (∀ v : Value, dget h.get_attributes k = some v →
      containsKey (response_dict_base h b) k = false →
      (k = "csrf_token" → dget ctx "csrf_token" = Option.none) →
      dget (response_dict_core h ctx b) k = some v) ∧
    (containsKey (response_dict_base h b) k = true →
      dget (response_dict_core h ctx b) k = dget (response_dict_base h b) k) := by
  have hcsrf : containsKey (response_dict_base h b) "csrf_token" = false := by
    obtain ⟨opts, hattrs, lay⟩ := h
    cases b <;> rfl
  constructor
  · intro v hv hnot hcs
    cases hget : dget ctx "csrf_token" with
    | none =>
        simp only [response_dict_core, hget]
        exact pass_through_adds _ _ _ _ hnot hv
    | some w =>
        have hkne : ¬k = "csrf_token" := by
          intro hk
          rw [hcs hk] at hget
          exact Option.noConfusion hget
        simp only [response_dict_core, hget]
        rw [dget_dset_ne _ _ _ _ hkne]
        exact pass_through_adds _ _ _ _ hnot hv
  · intro hck
    have hkne : ¬k = "csrf_token" := by
      intro hk
      rw [hk, hcsrf] at hck
      exact Bool.false_ne_true hck
    cases hget : dget ctx "csrf_token" with
    | none =>
        simp only [response_dict_core, hget]
        exact pass_through_preserves _ _ _ hck
    | some w =>
        simp only [response_dict_core, hget]
        rw [dget_dset_ne _ _ _ _ hkne]
        exact pass_through_preserves _ _ _ hck

/-- Witness for C9 (amended): a custom helper key passes through
unchanged, and a helper-declared `form_method` does not overwrite the
computed one. -/
theorem custom_key_pass_through_witness :
    dget (response_dict_core
        (FormHelper.mk [("custom_key", Value.str "v")] [] Option.none) [] false)
        "custom_key" = some (Value.str "v") ∧
    dget (response_dict_core
        (FormHelper.mk [("custom_key", Value.str "v")] [] Option.none) [] false)
        "form_method"
      = dget (response_dict_base
          (FormHelper.mk [("custom_key", Value.str "v")] [] Option.none) false)
          "form_method" :=
  ⟨(custom_key_pass_through
      (FormHelper.mk [("custom_key", Value.str "v")] [] Option.none) [] false
      "custom_key").1 (Value.str "v") rfl rfl
      (fun hk => absurd hk (by decide)),
   (custom_key_pass_through
      (FormHelper.mk [("custom_key", Value.str "v")] [] Option.none) [] false
      "form_method").2 rfl⟩

end Crispy
